import Mathlib

/-!
Shallow embedding of the Adaptive Stream Playback Controller of the zihtv
repository (src/components/CustomVideoPlayer.tsx) and proofs about it.

Times, volumes and durations are modelled as rationals; timer deadlines in the
controls-visibility machine are modelled as natural-number milliseconds.  The
single-threaded event-loop of the browser is modelled by applying handler
functions to an explicit state, one event at a time.
-/

namespace Zihtv

/-- The `streamType` prop of the component: `'live' | 'movie' | 'episode'`. -/
inductive ContentKind
  | live
  | movie
  | episode
deriving DecidableEq

/-- The `episodeData` prop (interface `EpisodeData`, lines 44-51). -/
structure EpisodeData where
  seriesId : Option String
  seasonNumber : Option Nat
  episodeNumber : Option Nat
  totalEpisodes : Option Nat
  nextEpisodeId : Option String
  prevEpisodeId : Option String
deriving DecidableEq

/-- The React state of the player (lines 74-94) together with a mirror of the
native video element's fields that the handlers read and write.  `videoTime`,
`videoMuted`, `videoVolume` and `videoBuffered` stand for
`videoRef.current.currentTime / muted / volume / buffered.end`; the element is
always present (the handlers' `if (!videoRef.current) return` guards never
fire in a mounted session). -/
structure PlayerState where
  isPlaying : Bool
  currentTime : ℚ
  duration : ℚ
  bufferedTime : ℚ
  volume : ℚ
  isMuted : Bool
  isBuffering : Bool
  isDragging : Bool
  autoPlayNext : Bool
  videoTime : ℚ
  videoMuted : Bool
  videoVolume : ℚ
  videoBuffered : Option ℚ
deriving DecidableEq

/-- The `useState` initial values (lines 74-94): not playing, time and
duration 0, volume 0.8, not muted, not dragging, auto-play-next enabled. -/
def initialPlayerState : PlayerState :=
  { isPlaying := false
    currentTime := 0
    duration := 0
    bufferedTime := 0
    volume := 4/5
    isMuted := false
    isBuffering := false
    isDragging := false
    autoPlayNext := true
    videoTime := 0
    videoMuted := false
    videoVolume := 4/5
    videoBuffered := none }

/-- `updateProgress` (lines 97-108), the `timeupdate` handler: when not
dragging it copies the element's `currentTime` into state and, if a buffered
range exists, its end into `bufferedTime`; while dragging it does nothing. -/
def updateProgress (s : PlayerState) : PlayerState :=
  if s.isDragging then s
  else
    match s.videoBuffered with
    | some b => { s with currentTime := s.videoTime, bufferedTime := b }
    | none => { s with currentTime := s.videoTime }

/-- Native `play` event handler (line 178): `setIsPlaying(true)`. -/
def handlePlay (s : PlayerState) : PlayerState :=
  { s with isPlaying := true }

/-- Native `pause` event handler (line 179): `setIsPlaying(false)`. -/
def handlePause (s : PlayerState) : PlayerState :=
  { s with isPlaying := false }

/-- Native `loadedmetadata` handler (lines 173-176): copies the element's
duration into state and clears the buffering flag. -/
def handleLoadedMetadata (s : PlayerState) (videoDuration : ℚ) : PlayerState :=
  { s with duration := videoDuration, isBuffering := false }

/-- Native `volumechange` handler (lines 183-186): mirrors the element's
`volume` and `muted` into state. -/
def handleVolumeChange (s : PlayerState) : PlayerState :=
  { s with volume := s.videoVolume, isMuted := s.videoMuted }

/-- `seek` (lines 352-363): clamps the requested time to `[0, duration]`,
writes it to the element and to the displayed time, and issues a native
`play()` call when the state said the video was playing.  The returned
boolean records whether `play()` was called. -/
def seek (s : PlayerState) (time : ℚ) : PlayerState × Bool :=
  let clampedTime := max 0 (min s.duration time)
  ({ s with videoTime := clampedTime, currentTime := clampedTime }, s.isPlaying)

/-- `seek` followed by the native `play` event that a successful `play()`
call fires (rejections are only logged by the `.catch` on line 361; the
model takes the element's play as succeeding). -/
def seekAndResume (s : PlayerState) (time : ℚ) : PlayerState :=
  let r := seek s time
  if r.2 then handlePlay r.1 else r.1

/-- `toggleMute` (lines 342-345): flips the element's `muted` flag; the state
flag follows via the `volumechange` event. -/
def toggleMute (s : PlayerState) : PlayerState :=
  { s with videoMuted := !s.videoMuted }

/-- A user mute toggle as the event loop sees it: the command on the element
followed by the native `volumechange` event it triggers. -/
def muteAction (s : PlayerState) : PlayerState :=
  handleVolumeChange (toggleMute s)

/-- `changeVolume` (lines 347-350): clamps to `[0,1]` and writes the element
volume. -/
def changeVolume (s : PlayerState) (newVolume : ℚ) : PlayerState :=
  { s with videoVolume := max 0 (min 1 newVolume) }

/-- The scrubber `onChange` handler (lines 645-653): sets `isDragging`,
stores the dragged value as the displayed time and writes it to the element
immediately. -/
def scrubChange (s : PlayerState) (time : ℚ) : PlayerState :=
  { s with isDragging := true, currentTime := time, videoTime := time }

/-- What the scrubber release handlers produce: the new state, the value (if
any) that the handler itself writes to the element as a committed seek, and
whether it issues a `play()` call. -/
structure ReleaseOutcome where
  state : PlayerState
  seekCommitted : Option ℚ
  playCalled : Bool
deriving DecidableEq

/-- The scrubber `onMouseUp`/`onTouchEnd` handlers (lines 654-667): clear
`isDragging` and issue `play()` when playing.  They write no time value of
their own, so `seekCommitted` is `none` in the source. -/
def scrubRelease (s : PlayerState) : ReleaseOutcome :=
  { state := { s with isDragging := false }
    seekCommitted := none
    playCalled := s.isPlaying }

/-- `handleKeyDown` case `ArrowRight` (lines 308-309): `seek(currentTime + 10)`. -/
def handleArrowRight (s : PlayerState) : PlayerState :=
  seekAndResume s (s.currentTime + 10)

/-- `handleKeyDown` case `ArrowLeft` (lines 305-306): `seek(currentTime - 10)`. -/
def handleArrowLeft (s : PlayerState) : PlayerState :=
  seekAndResume s (s.currentTime - 10)

/-- What the `ended` handler produces: the new state, the next-episode
identifier handed back to the caller (the component's only callback prop is
`onBack`, and `handleEnded` invokes no callback, so this is `none` in the
source), and the console output. -/
structure EndedOutcome where
  state : PlayerState
  advanceSignal : Option String
  logs : List String
deriving DecidableEq

/-- `handleEnded` (lines 195-201): sets `isPlaying` to false and, for an
episode with a `nextEpisodeId` while `autoPlayNext` is on, logs a placeholder
message; the body contains no further action (the comment on line 198 reads
that the auto-play logic would be implemented there). -/
def handleEnded (streamType : ContentKind) (episodeData : Option EpisodeData)
    (s : PlayerState) : EndedOutcome :=
  { state := { s with isPlaying := false }
    advanceSignal := none
    logs :=
      if streamType = ContentKind.episode ∧
          (Option.bind episodeData EpisodeData.nextEpisodeId).isSome = true ∧
          s.autoPlayNext = true then
        ["Auto-playing next episode..."]
      else [] }

/-- The primitives of the hls.js engine instance that a handler could call. -/
inductive EngineCall
  | startLoad
  | recoverMediaError
  | destroy
deriving DecidableEq

/-- The classification carried by an hls.js error event (`data.type`). -/
inductive HlsErrorType
  | networkError
  | mediaError
  | muxError
  | otherError
deriving DecidableEq

/-- The payload of an `Hls.Events.ERROR` event as the handler reads it. -/
structure HlsErrorData where
  fatal : Bool
  errorType : HlsErrorType
  details : String
deriving DecidableEq

/-- What one run of the error handler produces: the argument of the
`setError` call if one is made, the engine primitives invoked, and the
console output. -/
structure HlsErrorOutcome where
  setErrorCall : Option String
  engineCalls : List EngineCall
  errorLogs : List String
  warnLogs : List String
deriving DecidableEq

/-- The `Hls.Events.ERROR` handler (lines 153-160): a fatal event sets the
user-visible error and logs; a non-fatal event only logs a warning.  The
branch inspects `data.fatal` only — `data.type` is never read and no engine
primitive is invoked in either branch. -/
def onHlsError (d : HlsErrorData) : HlsErrorOutcome :=
  if d.fatal then
    { setErrorCall := some ("Playback error: " ++ d.details)
      engineCalls := []
      errorLogs := ["HLS.js fatal error: " ++ d.details]
      warnLogs := [] }
  else
    { setErrorCall := none
      engineCalls := []
      errorLogs := []
      warnLogs := ["HLS.js non-fatal error: " ++ d.details] }

/-- A configuration object for the hls.js constructor.  The source calls
`new Hls()` with no argument, so no value of this type ever occurs in the
embedding; the type exists so that "which profile was passed" is expressible. -/
structure EngineProfile where
  enableWorker : Bool
  lowLatencyMode : Bool
  backBufferLength : Nat
deriving DecidableEq

/-- The component-level state relevant to session setup and teardown: the
props, the engine binding, the registered listeners and the pending
hide-controls timeout (`controlsTimeoutRef`). -/
structure CompState where
  streamUrl : List Char
  streamType : ContentKind
  mounted : Bool
  hlsAttached : Bool
  engineConfig : Option EngineProfile
  errorHandlerBound : Bool
  manifestParsedBound : Bool
  mediaListenersAttached : Bool
  videoSrc : Option (List Char)
  controlsListenersAttached : Bool
  controlsTimeoutPending : Bool
  isPlaying : Bool
  errorMsg : Option String
deriving DecidableEq

/-- The characters of the adaptive-manifest extension `.m3u8`. -/
def m3u8Suffix : List Char := ['.', 'm', '3', 'u', '8']

/-- `streamUrl.endsWith('.m3u8')` (line 147), on the character list of the
URL. -/
def endsWithM3u8 (url : List Char) : Bool :=
  m3u8Suffix.isSuffixOf url

/-- The body of the video-init effect (lines 133-214): clear the error, then
for a `.m3u8` URL create an hls.js engine with `new Hls()` — no configuration
object, hence `engineConfig := none` — bind only the `ERROR` handler, or fall
back to native playback, or set the unsupported error; for other URLs assign
the native source.  The eleven media event listeners are added after the
branch in every case. -/
def videoInitSetup (s : CompState) (hlsSupported canPlayNativeHls : Bool) : CompState :=
  let s1 := { s with errorMsg := none, mediaListenersAttached := true }
  if endsWithM3u8 s.streamUrl then
    if hlsSupported then
      { s1 with hlsAttached := true, engineConfig := none,
                errorHandlerBound := true, manifestParsedBound := false }
    else if canPlayNativeHls then
      { s1 with videoSrc := some s.streamUrl }
    else
      { s1 with errorMsg := some "HLS playback is not supported in this browser." }
  else
    { s1 with videoSrc := some s.streamUrl }

/-- The cleanup returned by the video-init effect (lines 217-234): destroy
the engine if present (the null check makes a second run a no-op), remove the
eleven media listeners, clear the native source to the empty string.  It does
not touch `controlsTimeoutRef`. -/
def videoInitCleanup (s : CompState) : CompState :=
  { s with hlsAttached := false, engineConfig := none, errorHandlerBound := false,
           manifestParsedBound := false, mediaListenersAttached := false,
           videoSrc := some [] }

/-- The cleanup of the controls-visibility effect (lines 268-275): remove the
three container listeners and clear the pending hide timeout.  Its dependency
array is `[isPlaying]`, so it runs on unmount or when `isPlaying` changes —
not when `streamUrl` changes. -/
def controlsEffectCleanup (s : CompState) : CompState :=
  { s with controlsListenersAttached := false, controlsTimeoutPending := false }

/-- The state between the old session's cleanup and the new session's setup
when the `streamUrl` prop changes: React runs the video-init cleanup, the
prop takes its new value, and only then does the effect body run again. -/
def changeStreamUrlMid (s : CompState) (u : List Char) : CompState :=
  { videoInitCleanup s with streamUrl := u }

/-- A `streamUrl` prop change: video-init cleanup, new URL, video-init setup.
The controls-visibility effect does not re-run (its only dependency is
`isPlaying`), so its cleanup does not participate. -/
def changeStreamUrl (s : CompState) (u : List Char)
    (hlsSupported canPlayNativeHls : Bool) : CompState :=
  videoInitSetup (changeStreamUrlMid s u) hlsSupported canPlayNativeHls

/-- Unmounting the component: every effect's cleanup runs. -/
def unmount (s : CompState) : CompState :=
  { controlsEffectCleanup (videoInitCleanup s) with mounted := false }

/-- A fatal engine error surfacing through `setError` (line 155): the
component re-renders into the error screen, but no effect dependency changed,
so no cleanup runs at this point. -/
def onFatalErrorRender (s : CompState) (msg : String) : CompState :=
  { s with errorMsg := some msg }

/-- The state of the controls-visibility machine (lines 238-276): the
`showControls` flag, the `isPlaying` flag it is guarded by, and the absolute
deadline (in ms) of the pending hide timeout, if one is pending. -/
structure CtrlState where
  showControls : Bool
  isPlaying : Bool
  hideTimeout : Option Nat
deriving DecidableEq

/-- Initial controls state: `useState(true)` for `showControls`, not playing,
no pending timeout. -/
def ctrlInit : CtrlState :=
  { showControls := true, isPlaying := false, hideTimeout := none }

/-- The events the controls-visibility machine reacts to, each stamped with
the time (ms) at which it is delivered.  `clickEvt` and `keyDownEvt` are the
user's clicks and key presses: the controls effect registers no handler for
them, which the step function reflects. -/
inductive CtrlEvent
  | mouseMove (t : Nat)
  | mouseEnter (t : Nat)
  | mouseLeave (t : Nat)
  | timerFire (t : Nat)
  | playEvt (t : Nat)
  | pauseEvt (t : Nat)
  | clickEvt (t : Nat)
  | keyDownEvt (t : Nat)
deriving DecidableEq

/-- Delivery time of an event. -/
def eventTime : CtrlEvent → Nat
  | CtrlEvent.mouseMove t => t
  | CtrlEvent.mouseEnter t => t
  | CtrlEvent.mouseLeave t => t
  | CtrlEvent.timerFire t => t
  | CtrlEvent.playEvt t => t
  | CtrlEvent.pauseEvt t => t
  | CtrlEvent.clickEvt t => t
  | CtrlEvent.keyDownEvt t => t

/-- One step of the controls-visibility machine, from the handlers of the
effect on lines 238-276.  `mousemove` shows the controls and (re)arms the
3000 ms timeout; `mouseenter` only shows them; `mouseleave` hides them when
playing; a timeout that is still armed when it fires hides them when playing.
A `play`/`pause` event changes `isPlaying`, which re-runs the effect: its
cleanup clears any pending timeout.  Clicks and key presses have no handler
in this effect and leave the state unchanged. -/
def ctrlStep (s : CtrlState) : CtrlEvent → CtrlState
  | CtrlEvent.mouseMove t => { s with showControls := true, hideTimeout := some (t + 3000) }
  | CtrlEvent.mouseEnter _ => { s with showControls := true }
  | CtrlEvent.mouseLeave _ => if s.isPlaying then { s with showControls := false } else s
  | CtrlEvent.timerFire t =>
      if s.hideTimeout = some t then
        if s.isPlaying then { s with showControls := false, hideTimeout := none }
        else { s with hideTimeout := none }
      else s
  | CtrlEvent.playEvt _ => { s with isPlaying := true, hideTimeout := none }
  | CtrlEvent.pauseEvt _ => { s with isPlaying := false, hideTimeout := none }
  | CtrlEvent.clickEvt _ => s
  | CtrlEvent.keyDownEvt _ => s

/-- Run the controls machine over a list of events. -/
def ctrlRun (s : CtrlState) (events : List CtrlEvent) : CtrlState :=
  events.foldl ctrlStep s

/-- The qualifying-activity set named by the specification: pointer move,
pointer enter, click, key press. -/
def qualifyingActivity : CtrlEvent → Bool
  | CtrlEvent.mouseMove _ => true
  | CtrlEvent.mouseEnter _ => true
  | CtrlEvent.clickEvt _ => true
  | CtrlEvent.keyDownEvt _ => true
  | _ => false

/-- The activity that actually re-arms the hide timeout in the source:
pointer move only. -/
def isMouseMove : CtrlEvent → Bool
  | CtrlEvent.mouseMove _ => true
  | _ => false

/-- Check for one event of a trace: when a firing timer hides the controls
(`s` visible before, `s1` hidden after), the fire time must be at least
3000 ms after the last qualifying activity `lastActivity`; every other event
passes. -/
def hideCheckOk (s s1 : CtrlState) (lastActivity : Option Nat) : CtrlEvent → Bool
  | CtrlEvent.timerFire t =>
    if s.showControls && !s1.showControls then
      match lastActivity with
      | some a => decide (a + 3000 ≤ t)
      | none => true
    else true
  | _ => true

/-- Trace checker for the inactivity-window property: running the machine
over the events, every hide performed by a firing timer must come at least
3000 ms after the last activity in the set `qualifies`.  `lastActivity` is
the time of the most recent qualifying event seen so far. -/
def hideWindowOk (qualifies : CtrlEvent → Bool) :
    CtrlState → Option Nat → List CtrlEvent → Bool
  | _, _, [] => true
  | s, lastActivity, e :: rest =>
    hideCheckOk s (ctrlStep s e) lastActivity e &&
      hideWindowOk qualifies (ctrlStep s e)
        (if qualifies e then some (eventTime e) else lastActivity) rest

/-- Invariant tying the pending timeout to the last pointer move: an armed
deadline is exactly 3000 ms after the move that armed it. -/
def timeoutFromMove (s : CtrlState) (lastMove : Option Nat) : Prop :=
  ∀ d, s.hideTimeout = some d → ∃ m, lastMove = some m ∧ d = m + 3000

/-- A playing session in which metadata has arrived: duration 100 s. -/
def playingDemo : PlayerState :=
  { initialPlayerState with isPlaying := true, duration := 100 }

/-- A drag in progress on `playingDemo`: drag-move to 5 s, then to 7 s. -/
def dragDemo : PlayerState :=
  scrubChange (scrubChange playingDemo 5) 7

/-- Episode context whose `nextEpisodeId` is present. -/
def nextEpisodeDemo : EpisodeData :=
  { seriesId := some "s1"
    seasonNumber := some 1
    episodeNumber := some 1
    totalEpisodes := some 10
    nextEpisodeId := some "ep2"
    prevEpisodeId := none }

/-- A concrete fatal network-classified engine fault. -/
def fatalNetworkFault : HlsErrorData :=
  { fatal := true, errorType := HlsErrorType.networkError, details := "fragLoadError" }

/-- A mounted live session with an attached engine, registered listeners and
a pending hide-controls timeout. -/
def compDemo : CompState :=
  { streamUrl := ['a', '.', 'm', '3', 'u', '8']
    streamType := ContentKind.live
    mounted := true
    hlsAttached := true
    engineConfig := none
    errorHandlerBound := true
    manifestParsedBound := false
    mediaListenersAttached := true
    videoSrc := none
    controlsListenersAttached := true
    controlsTimeoutPending := true
    isPlaying := true
    errorMsg := none }

/-- `compDemo` with the movie content kind. -/
def compDemoMovie : CompState :=
  { compDemo with streamType := ContentKind.movie }

/-- Attaching `compDemo` (a live `.m3u8` session) with hls.js supported. -/
def attachDemoLive : CompState := videoInitSetup compDemo true false

/-- Attaching the same URL as a movie with hls.js supported. -/
def attachDemoMovie : CompState := videoInitSetup compDemoMovie true false

/-- Controls trace for the window property: start playing, a pointer move at
10 ms arms the hide timeout for 3010 ms, a pointer enter at 2900 ms, and the
timer fires at 3010 ms. -/
def ctrlTrace7 : List CtrlEvent :=
  [CtrlEvent.playEvt 0, CtrlEvent.mouseMove 10,
   CtrlEvent.mouseEnter 2900, CtrlEvent.timerFire 3010]

/-- Controls trace reaching hidden-while-paused: start playing, pointer move
arms the timeout, the timer hides the controls, then the user pauses with
the `k` key (a key press reaches no controls handler). -/
def ctrlTrace8 : List CtrlEvent :=
  [CtrlEvent.playEvt 0, CtrlEvent.mouseMove 10, CtrlEvent.timerFire 3010,
   CtrlEvent.keyDownEvt 3500, CtrlEvent.pauseEvt 3500]

/-- Claim C3: `seek(t)` sets the element's and the displayed current time to
`t` clamped to `[0, duration]`, and when the session was playing immediately
before the seek, playback is resumed: `isPlaying` is true after the seek; in
general `isPlaying` is unchanged, so a playing session is never silently left
paused. -/
theorem seek_clamps_and_resumes (s : PlayerState) (t : ℚ) (hdur : 0 ≤ s.duration) :
    (seekAndResume s t).videoTime = max 0 (min s.duration t) ∧
    (seekAndResume s t).currentTime = max 0 (min s.duration t) ∧
    0 ≤ (seekAndResume s t).currentTime ∧
    (seekAndResume s t).currentTime ≤ s.duration ∧
    (s.isPlaying = true → (seekAndResume s t).isPlaying = true) ∧
    (seekAndResume s t).isPlaying = s.isPlaying := by
  have hc0 : (0 : ℚ) ≤ max 0 (min s.duration t) := le_max_left 0 _
  have hcd : max 0 (min s.duration t) ≤ s.duration := max_le hdur (min_le_left _ _)
  unfold seekAndResume seek handlePlay
  cases hp : s.isPlaying <;> simp [hp, hc0, hcd]

/-- Witness for C3 at a playing session with duration 100 s seeking to 42 s. -/
theorem seek_clamps_and_resumes_witness :
    (seekAndResume playingDemo 42).currentTime = max 0 (min playingDemo.duration 42) ∧
    (seekAndResume playingDemo 42).isPlaying = true := by
  have h := seek_clamps_and_resumes playingDemo 42 (by norm_num [playingDemo, initialPlayerState])
  exact ⟨h.2.1, h.2.2.2.2.1 rfl⟩

/-- Claim C9: toggling mute is an involution on the muted flag: two
`toggleMute()` calls, each mirrored by the `volumechange` event it triggers,
return the element's `muted` flag — and with it the mirrored `isMuted`
state — to the original value. -/
theorem toggleMute_involution (s : PlayerState) :
    (muteAction (muteAction s)).videoMuted = s.videoMuted ∧
    (s.isMuted = s.videoMuted → (muteAction (muteAction s)).isMuted = s.isMuted) := by
  constructor
  · simp [muteAction, handleVolumeChange, toggleMute]
  · intro h
    simp [muteAction, handleVolumeChange, toggleMute]
    exact h.symm

/-- Witness for C9 at the initial state. -/
theorem toggleMute_involution_witness :
    (muteAction (muteAction initialPlayerState)).isMuted = initialPlayerState.isMuted :=
  (toggleMute_involution initialPlayerState).2 rfl

/-- Claim C10: before `loadedmetadata` has fired, `duration` still holds its
initial value 0, so every `seek(t)` clamps to `[0,0]` and writes 0 to the
element and the display, and the ArrowRight shortcut
(`seek(currentTime + 10)`) lands at the start instead of advancing. -/
theorem seek_disabled_before_metadata (s : PlayerState) (t : ℚ) (h : s.duration = 0) :
    initialPlayerState.duration = 0 ∧
    (seekAndResume s t).currentTime = 0 ∧
    (seekAndResume s t).videoTime = 0 ∧
    (handleArrowRight s).currentTime = 0 ∧
    (handleArrowLeft s).currentTime = 0 := by
  have hclamp : ∀ u : ℚ, max 0 (min s.duration u) = 0 := by
    intro u
    rw [h]
    exact max_eq_left (min_le_left 0 u)
  refine ⟨rfl, ?_, ?_, ?_, ?_⟩ <;>
    simp only [handleArrowRight, handleArrowLeft, seekAndResume, seek, handlePlay] <;>
    cases hp : s.isPlaying <;> simp [hp, hclamp]

/-- Witness for C10 at the initial (pre-metadata) state with a forward seek. -/
theorem seek_disabled_before_metadata_witness :
    (seekAndResume initialPlayerState 25).currentTime = 0 ∧
    (handleArrowRight initialPlayerState).currentTime = 0 :=
  ⟨(seek_disabled_before_metadata initialPlayerState 25 rfl).2.1,
   (seek_disabled_before_metadata initialPlayerState 25 rfl).2.2.2.1⟩

/-- Claim C1 counterexample: at the very first fatal network-classified fault
the handler issues no restart-load call (no engine call at all) and
immediately sets the user-visible error, refuting "exactly one restart-load
call before any user-visible error". -/
theorem hlsError_recovery_counterexample :
    ¬ ((onHlsError fatalNetworkFault).engineCalls = [EngineCall.startLoad] ∧
       (onHlsError fatalNetworkFault).setErrorCall = none) := by
  intro hcl
  exact absurd hcl.1 (by decide)

/-- Claim C1 (amended): the error handler performs no automated recovery at
all — it never invokes an engine primitive; a fatal fault of any
classification immediately sets the user-visible error carrying the fault's
detail string, and a non-fatal fault only logs a warning. -/
theorem hlsError_no_recovery (d : HlsErrorData) :
    (onHlsError d).engineCalls = [] ∧
    (d.fatal = true →
      (onHlsError d).setErrorCall = some ("Playback error: " ++ d.details)) ∧
    (d.fatal = false →
      (onHlsError d).setErrorCall = none ∧ (onHlsError d).warnLogs ≠ []) := by
  cases hf : d.fatal <;> simp [onHlsError, hf]

/-- Witness for the amended C1 at a concrete fatal network fault. -/
theorem hlsError_no_recovery_witness :
    (onHlsError fatalNetworkFault).engineCalls = [] ∧
    (onHlsError fatalNetworkFault).setErrorCall = some ("Playback error: " ++ "fragLoadError") :=
  ⟨(hlsError_no_recovery fatalNetworkFault).1,
   (hlsError_no_recovery fatalNetworkFault).2.1 rfl⟩

/-- Claim C2 counterexample: after a drag whose last drag-move value is 7,
the release handler commits no `seek()` of its own — `seekCommitted` is
`none`, not `some 7` — refuting "exactly one `seek()` is committed with the
last pending time". -/
theorem scrubRelease_commit_counterexample :
    ¬ ((scrubRelease dragDemo).seekCommitted = some 7) := by decide

/-- Claim C2 (amended): while a drag is in progress, `timeupdate` events
leave the state untouched; every drag-move stores its value as the displayed
time and writes it to the element immediately; release clears `isDragging`
and issues `play()` exactly when the session was playing, but commits no seek
of its own — the element already holds the last drag-move value. -/
theorem scrub_reconciliation (s : PlayerState) (v : ℚ) (hd : s.isDragging = true) :
    updateProgress s = s ∧
    (scrubChange s v).currentTime = v ∧
    (scrubChange s v).videoTime = v ∧
    (scrubChange s v).isDragging = true ∧
    (scrubRelease s).state.isDragging = false ∧
    (scrubRelease s).seekCommitted = none ∧
    (scrubRelease s).state.videoTime = s.videoTime ∧
    (scrubRelease s).playCalled = s.isPlaying := by
  refine ⟨?_, rfl, rfl, rfl, rfl, rfl, rfl, rfl⟩
  simp [updateProgress, hd]

/-- Witness for the amended C2 on the concrete drag `dragDemo`. -/
theorem scrub_reconciliation_witness :
    updateProgress dragDemo = dragDemo ∧
    (scrubRelease dragDemo).seekCommitted = none :=
  ⟨(scrub_reconciliation dragDemo 3 rfl).1,
   (scrub_reconciliation dragDemo 3 rfl).2.2.2.2.2.1⟩

/-- Claim C6 counterexample: on `ended` for an episode with
`nextEpisodeId = "ep2"` present and auto-advance enabled, the handler hands
no identifier back to the caller — the advance signal is `none`, not
`some "ep2"`. -/
theorem ended_advance_counterexample :
    ¬ ((handleEnded ContentKind.episode (some nextEpisodeDemo) playingDemo).advanceSignal
        = some "ep2") := by decide

/-- Claim C6 (amended): on `ended` the handler sets `isPlaying` false and
hands no identifier to the caller in any case; when the content is an
episode with `nextEpisodeId` present and auto-advance enabled it only prints
a placeholder log line, and when `nextEpisodeId` is absent it prints
nothing. -/
theorem handleEnded_no_advance_signal (streamType : ContentKind)
    (episodeData : Option EpisodeData) (s : PlayerState) :
    (handleEnded streamType episodeData s).advanceSignal = none ∧
    (handleEnded streamType episodeData s).state.isPlaying = false ∧
    ((Option.bind episodeData EpisodeData.nextEpisodeId).isSome = false →
      (handleEnded streamType episodeData s).logs = []) ∧
    (streamType = ContentKind.episode →
      (Option.bind episodeData EpisodeData.nextEpisodeId).isSome = true →
      s.autoPlayNext = true →
      (handleEnded streamType episodeData s).logs = ["Auto-playing next episode..."]) := by
  refine ⟨rfl, rfl, ?_, ?_⟩
  · intro h
    simp [handleEnded, h]
  · intro h1 h2 h3
    simp [handleEnded, h1, h2, h3]

/-- Witness for the amended C6: with `nextEpisodeId` present the log line is
printed; with no episode data nothing is printed. -/
theorem handleEnded_no_advance_signal_witness :
    (handleEnded ContentKind.episode (some nextEpisodeDemo) playingDemo).logs
      = ["Auto-playing next episode..."] ∧
    (handleEnded ContentKind.live none playingDemo).logs = [] :=
  ⟨(handleEnded_no_advance_signal ContentKind.episode (some nextEpisodeDemo) playingDemo).2.2.2
      rfl rfl rfl,
   (handleEnded_no_advance_signal ContentKind.live none playingDemo).2.2.1 rfl⟩

/-- Claim C4 counterexample: changing `streamUrl` on a session with a pending
hide-controls timeout leaves that timeout pending although the new session is
already attached, and a fatal error leaves the engine attached — teardown
does not run as claimed on these exit paths. -/
theorem teardown_claim_counterexample :
    ¬ (((changeStreamUrl compDemo ['b', '.', 'm', '3', 'u', '8'] true false).controlsTimeoutPending
          = false) ∧
       ((onFatalErrorRender compDemo "Playback error: bufferStalledError").hlsAttached = false)) := by
  intro hcl
  exact absurd hcl.1 (by decide)

/-- Claim C4 (amended): the video-init cleanup is idempotent and runs on
`streamUrl` change and on unmount, so on those two paths the engine is
detached, the media listeners are removed and the native source is cleared
before any new session attaches; the hide-controls timeout, however, is
cleared only by the controls effect (on unmount or an `isPlaying` change) —
a `streamUrl` change leaves it pending — and on a fatal error no teardown
runs at that moment: the engine stays attached until a later unmount or
dependency change. -/
theorem teardown_amended (s : CompState) (u : List Char)
    (hlsSupported canPlayNativeHls : Bool) (msg : String) :
    videoInitCleanup (videoInitCleanup s) = videoInitCleanup s ∧
    (changeStreamUrlMid s u).hlsAttached = false ∧
    (changeStreamUrlMid s u).mediaListenersAttached = false ∧
    (changeStreamUrlMid s u).videoSrc = some [] ∧
    (unmount s).hlsAttached = false ∧
    (unmount s).mediaListenersAttached = false ∧
    (unmount s).videoSrc = some [] ∧
    (unmount s).controlsTimeoutPending = false ∧
    (changeStreamUrl s u hlsSupported canPlayNativeHls).controlsTimeoutPending
      = s.controlsTimeoutPending ∧
    (onFatalErrorRender s msg).hlsAttached = s.hlsAttached := by
  refine ⟨rfl, rfl, rfl, rfl, rfl, rfl, rfl, rfl, ?_, rfl⟩
  simp only [changeStreamUrl, videoInitSetup, changeStreamUrlMid, videoInitCleanup]
  split_ifs <;> rfl

/-- Claim C5 counterexample: attaching a live `.m3u8` stream creates the
engine with the default constructor configuration — identical to the one a
movie attach gets, so there is no live-specific low-latency profile — and
binds no manifest-parsed handler, so no `play()` is tied to that signal. -/
theorem attach_live_profile_counterexample :
    ¬ (attachDemoLive.manifestParsedBound = true ∧
       attachDemoLive.engineConfig ≠ attachDemoMovie.engineConfig) := by
  intro hcl
  exact absurd hcl.1 (by decide)

/-- Claim C5 (amended): for a `.m3u8` URL with hls.js supported, attach
creates the engine with the default constructor configuration regardless of
content kind, binds only the engine error handler and no manifest-parsed
handler (so nothing calls `play()` on that signal), and reports no error. -/
theorem attach_default_profile (s : CompState) (hlsSupported canPlayNativeHls : Bool)
    (hurl : endsWithM3u8 s.streamUrl = true) (hs : hlsSupported = true) :
    (videoInitSetup s hlsSupported canPlayNativeHls).hlsAttached = true ∧
    (videoInitSetup s hlsSupported canPlayNativeHls).engineConfig = none ∧
    (videoInitSetup s hlsSupported canPlayNativeHls).errorHandlerBound = true ∧
    (videoInitSetup s hlsSupported canPlayNativeHls).manifestParsedBound = false ∧
    (videoInitSetup s hlsSupported canPlayNativeHls).errorMsg = none ∧
    (∀ k, (videoInitSetup { s with streamType := k } hlsSupported canPlayNativeHls).engineConfig
        = (videoInitSetup s hlsSupported canPlayNativeHls).engineConfig) := by
  subst hs
  simp [videoInitSetup, hurl]

/-- Witness for the amended C5 at the concrete live attach. -/
theorem attach_default_profile_witness :
    endsWithM3u8 compDemo.streamUrl = true ∧
    attachDemoLive.engineConfig = none ∧
    attachDemoLive.manifestParsedBound = false :=
  ⟨by decide,
   (attach_default_profile compDemo true false (by decide) rfl).2.1,
   (attach_default_profile compDemo true false (by decide) rfl).2.2.2.1⟩

/-- Auxiliary: one machine step preserves the deadline invariant, with the
last pointer move updated the way the `isMouseMove` checker tracks it. -/
theorem timeoutFromMove_step (s : CtrlState) (lastMove : Option Nat) (e : CtrlEvent)
    (hinv : timeoutFromMove s lastMove) :
    timeoutFromMove (ctrlStep s e)
      (if isMouseMove e then some (eventTime e) else lastMove) := by
  cases e with
  | mouseMove t =>
    intro d hd
    simp only [isMouseMove, eventTime, if_true]
    refine ⟨t, rfl, ?_⟩
    simpa [ctrlStep] using hd.symm
  | mouseEnter t =>
    intro d hd
    simp only [isMouseMove]
    exact hinv d (by simpa [ctrlStep] using hd)
  | mouseLeave t =>
    intro d hd
    simp only [isMouseMove]
    cases hp : s.isPlaying <;> simp [ctrlStep, hp] at hd <;> exact hinv d hd
  | timerFire t =>
    intro d hd
    by_cases hto : s.hideTimeout = some t
    · cases hp : s.isPlaying <;> simp [ctrlStep, hto, hp] at hd
    · simp [ctrlStep, hto] at hd
      simp only [isMouseMove]
      exact hinv d hd
  | playEvt t =>
    intro d hd
    simp [ctrlStep] at hd
  | pauseEvt t =>
    intro d hd
    simp [ctrlStep] at hd
  | clickEvt t =>
    intro d hd
    simp only [isMouseMove]
    exact hinv d (by simpa [ctrlStep] using hd)
  | keyDownEvt t =>
    intro d hd
    simp only [isMouseMove]
    exact hinv d (by simpa [ctrlStep] using hd)

/-- Auxiliary: with the inactivity window measured from the last pointer
move, the window check passes on every trace from a state satisfying the
deadline invariant. -/
theorem hideWindowOk_isMouseMove_aux (events : List CtrlEvent) :
    ∀ (s : CtrlState) (lastMove : Option Nat), timeoutFromMove s lastMove →
      hideWindowOk isMouseMove s lastMove events = true := by
  induction events with
  | nil =>
    intro s lastMove _
    rfl
  | cons e rest ih =>
    intro s lastMove hinv
    have hrec := ih (ctrlStep s e) (if isMouseMove e then some (eventTime e) else lastMove)
      (timeoutFromMove_step s lastMove e hinv)
    have hok : hideCheckOk s (ctrlStep s e) lastMove e = true := by
      cases e with
      | timerFire t =>
        by_cases hto : s.hideTimeout = some t
        · by_cases hsc : s.showControls = true
          · by_cases hp : s.isPlaying = true
            · obtain ⟨m, hm, hdm⟩ := hinv t hto
              subst hdm
              simp [hideCheckOk, ctrlStep, hto, hp, hsc, hm]
            · simp [hideCheckOk, ctrlStep, hto, hp]
          · simp [hideCheckOk, hsc]
        · simp [hideCheckOk, ctrlStep, hto]
      | mouseMove t => rfl
      | mouseEnter t => rfl
      | mouseLeave t => rfl
      | playEvt t => rfl
      | pauseEvt t => rfl
      | clickEvt t => rfl
      | keyDownEvt t => rfl
    calc hideWindowOk isMouseMove s lastMove (e :: rest)
        = (hideCheckOk s (ctrlStep s e) lastMove e &&
            hideWindowOk isMouseMove (ctrlStep s e)
              (if isMouseMove e then some (eventTime e) else lastMove) rest) := rfl
      _ = true := by rw [hok, hrec]; rfl

/-- Claim C7 counterexample: the trace `ctrlTrace7` — pointer move at 10 ms
arming the hide timeout, qualifying pointer enter at 2900 ms, timer firing at
3010 ms — hides the controls only 110 ms after a qualifying activity, because
pointer enter shows the controls without re-arming the timeout; the
qualifying-activity window check therefore fails on a real trace of the
machine. -/
theorem controls_qualifying_window_counterexample :
    hideWindowOk qualifyingActivity ctrlInit none ctrlTrace7 = false := by decide

/-- Claim C7 (amended): hides respect a 3000 ms inactivity window measured
from the last pointer move only — pointer enter forces the controls visible
without re-arming the pending timeout, and clicks and key presses neither
show nor re-arm; pointer leave while playing hides immediately; and any
transition from visible to hidden happens only while `isPlaying` is true. -/
theorem controls_hide_inactivity_window (events : List CtrlEvent) :
    hideWindowOk isMouseMove ctrlInit none events = true ∧
    (∀ s t, s.isPlaying = true →
      (ctrlStep s (CtrlEvent.mouseLeave t)).showControls = false) ∧
    (∀ s e, s.showControls = true → (ctrlStep s e).showControls = false →
      s.isPlaying = true) := by
  refine ⟨hideWindowOk_isMouseMove_aux events ctrlInit none ?_, ?_, ?_⟩
  · intro d hd
    simp [ctrlInit] at hd
  · intro s t hp
    simp [ctrlStep, hp]
  · intro s e hsc hhide
    cases e with
    | mouseMove t => simp [ctrlStep] at hhide
    | mouseEnter t => simp [ctrlStep] at hhide
    | mouseLeave t =>
      cases hp : s.isPlaying
      · simp [ctrlStep, hp, hsc] at hhide
      · rfl
    | timerFire t =>
      by_cases hto : s.hideTimeout = some t
      · cases hp : s.isPlaying
        · simp [ctrlStep, hto, hp, hsc] at hhide
        · rfl
      · simp [ctrlStep, hto, hsc] at hhide
    | playEvt t => simp [ctrlStep, hsc] at hhide
    | pauseEvt t => simp [ctrlStep, hsc] at hhide
    | clickEvt t => simp [ctrlStep, hsc] at hhide
    | keyDownEvt t => simp [ctrlStep, hsc] at hhide

/-- Witness for the amended C7: a concrete trace passing the pointer-move
window check, a concrete immediate hide on pointer leave, and a concrete
timer hide that happens while playing. -/
theorem controls_hide_inactivity_window_witness :
    hideWindowOk isMouseMove ctrlInit none
      [CtrlEvent.playEvt 0, CtrlEvent.mouseMove 10, CtrlEvent.timerFire 3010] = true ∧
    (ctrlStep { showControls := true, isPlaying := true, hideTimeout := none }
      (CtrlEvent.mouseLeave 7)).showControls = false ∧
    ({ showControls := true, isPlaying := true, hideTimeout := some 5 } : CtrlState).isPlaying
      = true :=
  ⟨(controls_hide_inactivity_window
      [CtrlEvent.playEvt 0, CtrlEvent.mouseMove 10, CtrlEvent.timerFire 3010]).1,
   (controls_hide_inactivity_window []).2.1
      { showControls := true, isPlaying := true, hideTimeout := none } 7 rfl,
   (controls_hide_inactivity_window []).2.2
      { showControls := true, isPlaying := true, hideTimeout := some 5 }
      (CtrlEvent.timerFire 5) rfl (by decide)⟩

/-- Claim C8 counterexample: the trace `ctrlTrace8` — play, pointer move,
timer hide, then a pause issued from the keyboard — reaches a state with
`isPlaying = false` and the controls hidden: pausing does not force the
controls visible. -/
theorem paused_hidden_reachable_counterexample :
    (ctrlRun ctrlInit ctrlTrace8).isPlaying = false ∧
    (ctrlRun ctrlInit ctrlTrace8).showControls = false := by decide

/-- Claim C8 (amended): no step hides the controls while paused — a
transition from visible to hidden requires `isPlaying = true` both before and
after — and a pause event clears the pending hide timer; but pausing does not
force the controls visible: it leaves `showControls` unchanged, so a hidden
state entered while playing persists through the pause. -/
theorem paused_never_hides :
    (∀ s e, s.showControls = true → (ctrlStep s e).showControls = false →
      s.isPlaying = true ∧ (ctrlStep s e).isPlaying = true) ∧
    (∀ s t, (ctrlStep s (CtrlEvent.pauseEvt t)).hideTimeout = none ∧
      (ctrlStep s (CtrlEvent.pauseEvt t)).showControls = s.showControls) := by
  constructor
  · intro s e hsc hhide
    cases e with
    | mouseMove t => simp [ctrlStep] at hhide
    | mouseEnter t => simp [ctrlStep] at hhide
    | mouseLeave t =>
      cases hp : s.isPlaying
      · simp [ctrlStep, hp, hsc] at hhide
      · exact ⟨rfl, by simp [ctrlStep, hp]⟩
    | timerFire t =>
      by_cases hto : s.hideTimeout = some t
      · cases hp : s.isPlaying
        · simp [ctrlStep, hto, hp, hsc] at hhide
        · exact ⟨rfl, by simp [ctrlStep, hto, hp]⟩
      · simp [ctrlStep, hto, hsc] at hhide
    | playEvt t => simp [ctrlStep, hsc] at hhide
    | pauseEvt t => simp [ctrlStep, hsc] at hhide
    | clickEvt t => simp [ctrlStep, hsc] at hhide
    | keyDownEvt t => simp [ctrlStep, hsc] at hhide
  · intro s t
    exact ⟨rfl, rfl⟩

/-- Witness for the amended C8: a concrete timer hide while playing, and a
concrete pause clearing the timer. -/
theorem paused_never_hides_witness :
    (ctrlStep { showControls := true, isPlaying := true, hideTimeout := some 9 }
      (CtrlEvent.timerFire 9)).isPlaying = true ∧
    (ctrlStep { showControls := true, isPlaying := false, hideTimeout := none }
      (CtrlEvent.pauseEvt 4)).hideTimeout = none :=
  ⟨(paused_never_hides.1 { showControls := true, isPlaying := true, hideTimeout := some 9 }
      (CtrlEvent.timerFire 9) rfl (by decide)).2,
   (paused_never_hides.2 { showControls := true, isPlaying := false, hideTimeout := none } 4).1⟩

end Zihtv
